import Mathlib

/-
  Verification development for the Find a Tender data pipeline (src/app.py).

  The OCDS release JSON objects are shallowly embedded as Lean structures whose
  fields are the keys that the program reads.  A key that may be absent from the
  JSON object is an `Option`; Python's `d.get(k, default)` becomes
  `Option.getD`, list indexing `xs[0]` / `xs[-1]` becomes `pyIndex0` / `pyLast`
  (raising `PyErr.indexError` on an empty list, as Python does), and a Python
  exception is an `Except PyErr` result.  `pd.to_datetime(_, errors := coerce)`
  is abstracted as a caller-supplied `parse : String → Option Int` returning
  epoch seconds (`none` models `NaT`).
-/

namespace FindaTender

/-- A flat cell value in a produced record: string, integer, or boolean. -/
inductive FV where
  | s (v : String)
  | i (v : Int)
  | b (v : Bool)
deriving DecidableEq, Repr

/-- Python exceptions that the modelled code can raise. -/
inductive PyErr where
  | indexError
  | valueError
deriving DecidableEq, Repr

/-- `documents` entries: only `noticeType` is read (app.py lines 367, 377). -/
structure Doc where
  noticeType : Option String := none
deriving DecidableEq, Repr

/-- A `value` object: `amount`, `amountGross`, `currency`. -/
structure Value where
  amount : Option Int := none
  amountGross : Option Int := none
  currency : Option String := none
deriving DecidableEq, Repr

/-- A period object with `startDate` / `endDate`. -/
structure Period where
  startDate : Option String := none
  endDate : Option String := none
deriving DecidableEq, Repr

/-- Lot `suitability` flags. -/
structure Suitability where
  sme : Option Bool := none
  vcse : Option Bool := none
deriving DecidableEq, Repr

/-- `awardCriteria`: a free-text `description` and a structured `criteria` list
(the program only tests the latter for truthiness, so elements are `Unit`). -/
structure Criteria where
  description : Option String := none
  criteria : Option (List Unit) := none
deriving DecidableEq, Repr

/-- An `additionalClassifications` entry: only `id` is read. -/
structure Classification where
  id : Option String := none
deriving DecidableEq, Repr

/-- A `tender.items` / `award.items` entry. -/
structure Item where
  relatedLot : Option String := none
  additionalClassifications : Option (List Classification) := none
deriving DecidableEq, Repr

/-- A `tender.lots` entry with the keys read by the extractors. -/
structure Lot where
  id : Option String := none
  title : Option String := none
  description : Option String := none
  value : Option Value := none
  contractPeriod : Option Period := none
  suitability : Option Suitability := none
  awardCriteria : Option Criteria := none
deriving DecidableEq, Repr

/-- `techniques.frameworkAgreement`: only `method` is read. -/
structure FrameworkAgreement where
  method : Option String := none
deriving DecidableEq, Repr

/-- `tender.techniques`. The JSON key `type` keeps its name. -/
structure Techniques where
  type : Option String := none
  frameworkAgreement : Option FrameworkAgreement := none
deriving DecidableEq, Repr

/-- `tender.communication`: only `futureNoticeDate` is read. -/
structure Communication where
  futureNoticeDate : Option String := none
deriving DecidableEq, Repr

/-- An object of which only a `description` key is read (`renewal`, `options`). -/
structure DescObj where
  description : Option String := none
deriving DecidableEq, Repr

/-- `tender.procedure`: only `features` is read. -/
structure Procedure where
  features : Option String := none
deriving DecidableEq, Repr

/-- A `milestones` entry with `dueDate` and `type`. -/
structure Milestone where
  dueDate : Option String := none
  type : Option String := none
deriving DecidableEq, Repr

/-- The `planning` section: `documents` and `milestones`. -/
structure Planning where
  documents : Option (List Doc) := none
  milestones : Option (List Milestone) := none
deriving DecidableEq, Repr

/-- The `tender` section with every key app.py reads from it. -/
structure Tender where
  id : Option String := none
  title : Option String := none
  description : Option String := none
  value : Option Value := none
  aboveThreshold : Option Bool := none
  documents : Option (List Doc) := none
  lots : Option (List Lot) := none
  items : Option (List Item) := none
  tenderPeriod : Option Period := none
  enquiryPeriod : Option Period := none
  awardPeriod : Option Period := none
  communication : Option Communication := none
  mainProcurementCategory : Option String := none
  techniques : Option Techniques := none
  procurementMethodDetails : Option String := none
  procedure : Option Procedure := none
  renewal : Option DescObj := none
  options : Option DescObj := none
  submissionMethodDetails : Option String := none
deriving DecidableEq, Repr

/-- A `suppliers` entry with `name` and `id`. -/
structure Supplier where
  name : Option String := none
  id : Option String := none
deriving DecidableEq, Repr

/-- An `awards` entry with every key app.py reads from it. -/
structure Award where
  status : Option String := none
  statusDetails : Option String := none
  title : Option String := none
  date : Option String := none
  assessmentSummariesDateSent : Option String := none
  mainProcurementCategory : Option String := none
  value : Option Value := none
  documents : Option (List Doc) := none
  contractPeriod : Option Period := none
  suppliers : Option (List Supplier) := none
  milestones : Option (List Milestone) := none
  items : Option (List Item) := none
  aboveThreshold : Option Bool := none
deriving DecidableEq, Repr

/-- A `contracts` entry with every key app.py reads from it. -/
structure Contract where
  documents : Option (List Doc) := none
  value : Option Value := none
  period : Option Period := none
  dateSigned : Option String := none
  aboveThreshold : Option Bool := none
deriving DecidableEq, Repr

/-- A `bids.statistics` entry. -/
structure Stat where
  measure : Option String := none
  value : Option Int := none
deriving DecidableEq, Repr

/-- The `bids` section: only `statistics` is read. -/
structure Bids where
  statistics : Option (List Stat) := none
deriving DecidableEq, Repr

/-- A party's `contactPoint`. -/
structure ContactPoint where
  name : Option String := none
  email : Option String := none
deriving DecidableEq, Repr

/-- A `parties` entry: `id` and `contactPoint`. -/
structure Party where
  id : Option String := none
  contactPoint : Option ContactPoint := none
deriving DecidableEq, Repr

/-- The `buyer` reference: `name` and `id`. -/
structure Buyer where
  name : Option String := none
  id : Option String := none
deriving DecidableEq, Repr

/-- One OCDS release, restricted to the keys app.py reads. -/
structure Release where
  ocid : Option String := none
  id : Option String := none
  date : Option String := none
  tag : Option (List String) := none
  planning : Option Planning := none
  tender : Option Tender := none
  awards : Option (List Award) := none
  contracts : Option (List Contract) := none
  parties : Option (List Party) := none
  buyer : Option Buyer := none
  bids : Option Bids := none
deriving DecidableEq, Repr

/-- Python `xs[0]`: raises `IndexError` on an empty list. -/
def pyIndex0 {α : Type} : List α → Except PyErr α
  | [] => .error .indexError
  | x :: _ => .ok x

/-- Python `xs[-1]`: raises `IndexError` on an empty list. -/
def pyLast {α : Type} (xs : List α) : Except PyErr α :=
  match xs.getLast? with
  | none => .error .indexError
  | some x => .ok x

/-- Python truthiness of an optional string (`None` and `""` are falsy). -/
def truthyStr : Option String → Bool
  | some s => !(s == "")
  | none => false

/-- Python truthiness of the optional structured `criteria` list. -/
def truthyCrit : Option (List Unit) → Bool
  | some (_ :: _) => true
  | _ => false

/-- Python truthiness of an optional `additionalClassifications` list. -/
def truthyClasses : Option (List Classification) → Bool
  | some (_ :: _) => true
  | _ => false

/-- Substring test used for `'update' in tag.lower()`. -/
def strContains (s sub : String) : Bool :=
  (s.splitOn sub).length > 1

/-- `release.get("tender", {})` (with all-absent default object). -/
def tdr (r : Release) : Tender := r.tender.getD {}

/-- Line 379: `lots = release.get("tender", {}).get("lots", [])`. -/
def lotsOf (r : Release) : List Lot := (tdr r).lots.getD []

/-- `release.get("tender", {}).get("lots", [{}])[0]` — note: an absent `lots`
key yields the one-element default `[{}]`, but a present empty list raises. -/
def lot0 (r : Release) : Except PyErr Lot :=
  pyIndex0 ((tdr r).lots.getD [{}])

/-- `release.get("parties", [{}])[0]`. -/
def party0 (r : Release) : Except PyErr Party :=
  pyIndex0 (r.parties.getD [{}])

/-- `release.get("awards", [{}])[0]`. -/
def award0 (r : Release) : Except PyErr Award :=
  pyIndex0 (r.awards.getD [{}])

/-- `release.get("contracts", [{}])[0]`. -/
def contract0 (r : Release) : Except PyErr Contract :=
  pyIndex0 (r.contracts.getD [{}])

/-- Line 380: `is_update = any('update' in tag.lower() for tag in release.get('tag', []))`. -/
def isUpdate (r : Release) : Bool :=
  (r.tag.getD []).any (fun t => strContains t.toLower "update")

/-- A JSON number field with `"N/A"` default (e.g. `.get("amount", "N/A")`). -/
def fvAmount (o : Option Int) : FV :=
  match o with
  | some n => .i n
  | none => .s "N/A"

/-- Wrap a pure string field value. -/
def okS (s : String) : Except PyErr FV := .ok (.s s)

/-- A string field with `"N/A"` default. -/
def okNA (o : Option String) : Except PyErr FV := .ok (.s (o.getD "N/A"))

/-- Line 349: `release.get("contracts", [])[0].get("documents", []) if release.get("contracts") else []`.
The indexing is guarded by the truthiness test, so it never raises. -/
def contractDocsOf (r : Release) : List Doc :=
  match r.contracts with
  | some (c :: _) => c.documents.getD []
  | _ => []

/-- Line 350: award documents candidate list, guarded the same way. -/
def awardDocsOf (r : Release) : List Doc :=
  match r.awards with
  | some (a :: _) => a.documents.getD []
  | _ => []

/-- Line 351: `release.get("tender", {}).get("documents", [])`. -/
def tenderDocsOf (r : Release) : List Doc := (tdr r).documents.getD []

/-- Line 352: `release.get("planning", {}).get("documents", [])`. -/
def planningDocsOf (r : Release) : List Doc := (r.planning.getD {}).documents.getD []

/-- Lines 369-377: the cancelled-first-award override.  When the awards list
is non-empty and its first entry has `status == "cancelled"`, the notice type
is re-read from `tender.documents[-1]` (which raises `IndexError` when that
list is empty); otherwise the already-computed `nt0` stands. -/
def applyOverride (r : Release) (nt0 : Option String) : Except PyErr (Option (Option String)) :=
  match r.awards with
  | some (a :: _) =>
    if a.status = some "cancelled" then
      match pyLast (tenderDocsOf r) with
      | .error e => .error e
      | .ok d2 => .ok (some d2.noticeType)
    else .ok (some nt0)
  | _ => .ok (some nt0)

/-- Lines 348-377: classification of one release.  `.ok none` models the
`continue` (release skipped); `.ok (some nt)` is the classified notice type,
itself optional because `documents[-1].get("noticeType")` may be absent. -/
def classify (r : Release) : Except PyErr (Option (Option String)) :=
  let docs? : Option (List Doc) :=
    if contractDocsOf r ≠ [] then some (contractDocsOf r)
    else if awardDocsOf r ≠ [] then some (awardDocsOf r)
    else if tenderDocsOf r ≠ [] then some (tenderDocsOf r)
    else if planningDocsOf r ≠ [] then some (planningDocsOf r)
    else none
  match docs? with
  | none => .ok none
  | some documents =>
    match pyLast documents with
    | .error e => .error e
    | .ok d => applyOverride r d.noticeType

/-- Lines 370 and 375: the awards list is non-empty and its first entry has
`status == "cancelled"` (the condition triggering the UK12 override). -/
def cancelledFirstAward (r : Release) : Bool :=
  match r.awards with
  | some (a :: _) => decide (a.status = some "cancelled")
  | _ => false

/-- A produced flat record: association list of column name to cell value. -/
abbrev Rec := List (String × FV)

/-- Build a record from per-field computations.  The first raising field aborts
the whole record, exactly as evaluating a Python dict literal would. -/
def buildRecord : List (String × Except PyErr FV) → Except PyErr Rec
  | [] => .ok []
  | (n, v) :: rest =>
    match v with
    | .error e => .error e
    | .ok fv =>
      match buildRecord rest with
      | .error e => .error e
      | .ok tail => .ok ((n, fv) :: tail)

/-- First value bound to a column name in an association list. -/
def fvLookup {α : Type} (n : String) : List (String × α) → Option α
  | [] => none
  | (m, v) :: rest => if n = m then some v else fvLookup n rest

/-- Threshold label from a boolean (lines 397, 488, 607-612). -/
def thresholdLabel (b : Bool) : String :=
  if b then "Above the relevant threshold" else "Below the relevant threshold"

/-- Lines 416-420 / 514-518: framework-agreement label from `techniques.type`. -/
def frameworkLabel (t : Tender) : String :=
  if (t.techniques.getD {}).type = some "closed" then "Closed Framework"
  else if (t.techniques.getD {}).type = some "open" then "Open Framework"
  else "N/A"

/-- Lines 421-426 / 519-524: call-off label from `techniques.frameworkAgreement.method`. -/
def callOffLabel (t : Tender) : String :=
  let m := ((t.techniques.getD {}).frameworkAgreement.getD {}).method
  if m = some "withReopeningCompetition" then "With competition"
  else if m = some "withoutReopeningCompetition" then "Without competition"
  else if m = some "withAndWithoutReopeningCompetition" then "Either with or without competition"
  else "N/A"

/-- Lot-level award-criteria cell (lines 453-457, 551-555, 689-693): free-text
description unless a structured `criteria` list is present. -/
def lotAwardCriteria (l : Lot) : FV :=
  if truthyCrit (l.awardCriteria.getD {}).criteria then .s "Refer to notice for detailed weightings"
  else .s ((l.awardCriteria.getD {}).description.getD "N/A")

/-- Notice-level award-criteria cell (lines 408-415 / 506-513): redirect to the
lots sheet when multi-lot, else the first lot's criteria cell. -/
def noticeAwardCriteria (r : Release) (lots : List Lot) : Except PyErr FV :=
  if lots.length > 1 then okS "Detailed in lots sheet"
  else
    match lot0 r with
    | .error e => .error e
    | .ok l => .ok (lotAwardCriteria l)

/-- `tender.items[{}][0].additionalClassifications[{}][0].id` with `"N/A"`
defaults (lines 403, 494, 642).  A present-but-empty list raises. -/
def cpvSingle (r : Release) : Except PyErr FV :=
  match pyIndex0 ((tdr r).items.getD [{}]) with
  | .error e => .error e
  | .ok it =>
    match pyIndex0 (it.additionalClassifications.getD [{}]) with
    | .error e => .error e
    | .ok c => okNA c.id

/-- Notice-level CPV cell: single code iff exactly one lot, else sentinel. -/
def cpvNotice (r : Release) (lots : List Lot) : Except PyErr FV :=
  if lots.length = 1 then cpvSingle r
  else okS "See lots sheet for CPV codes"

/-- Lot-record CPV (lines 458-465): first tender item whose `relatedLot`
equals the lot's id (Python `None == None` holds, matching `==` on `Option`). -/
def lotCPV (r : Release) (l : Lot) : Except PyErr FV :=
  match ((tdr r).items.getD []).find? (fun it => it.relatedLot == l.id) with
  | none => okS "N/A"
  | some it =>
    match pyIndex0 (it.additionalClassifications.getD [{}]) with
    | .error e => .error e
    | .ok c => okNA c.id

/-- Lines 647-658: first bids statistic with the given measure. -/
def bidStat (r : Release) (measure : String) : FV :=
  match ((r.bids.getD {}).statistics.getD []).find? (fun st => st.measure == some measure) with
  | some st => fvAmount st.value
  | none => .s "N/A"

/-- Lines 496-501: `Particular Suitability` — joined SME/VCSE tags of the
first lot, or `"N/A"` when the join is empty. -/
def particularSuitability (r : Release) : Except PyErr FV :=
  match lot0 r with
  | .error e => .error e
  | .ok l =>
    let parts :=
      (if (l.suitability.getD {}).sme.getD false then ["SME"] else [])
        ++ (if (l.suitability.getD {}).vcse.getD false then ["VCSE"] else [])
    let j := String.intercalate ", " parts
    .ok (.s (if j = "" then "N/A" else j))

/-- Lines 613-617: earliest contract signature date from the first award's
first milestone, when its `type` is `futureSignatureDate`. -/
def earliestSigned (r : Release) : Except PyErr FV :=
  match award0 r with
  | .error e => .error e
  | .ok a =>
    match pyIndex0 (a.milestones.getD [{}]) with
    | .error e => .error e
    | .ok m => .ok (.s (if m.type = some "futureSignatureDate" then m.dueDate.getD "N/A" else "N/A"))

/-- Lines 607-612: threshold cell for UK5-7, preserving Python's short-circuit
evaluation order (`contracts[0]` is only indexed for UK7, `awards[0]` only for
UK5/UK6 and only when the first disjunct is falsy). -/
def threshold567 (r : Release) (nt : String) : Except PyErr FV :=
  match (if nt = "UK7" then (contract0 r).map (fun c => c.aboveThreshold.getD false) else .ok false) with
  | .error e => .error e
  | .ok t1 =>
    if t1 then okS "Above the relevant threshold"
    else
      match (if nt = "UK5" ∨ nt = "UK6" then (award0 r).map (fun a => a.aboveThreshold.getD false) else .ok false) with
      | .error e => .error e
      | .ok t2 => okS (thresholdLabel t2)

/-- Lines 592-606: awarded amount / currency cells come from `contracts[0]`
for UK7 and from `awards[0]` otherwise. -/
def awardedCell (r : Release) (nt : String) (proj : Value → FV) : Except PyErr FV :=
  if nt = "UK7" then (contract0 r).map (fun c => proj (c.value.getD {}))
  else (award0 r).map (fun a => proj (a.value.getD {}))

/-- Lines 618-627: contract period cells, `contracts[0].period` for UK7 and
`awards[0].contractPeriod` otherwise. -/
def period567 (r : Release) (nt : String) (proj : Period → Option String) : Except PyErr FV :=
  if nt = "UK7" then (contract0 r).map (fun c => .s ((proj (c.period.getD {})).getD "N/A"))
  else (award0 r).map (fun a => .s ((proj (a.contractPeriod.getD {})).getD "N/A"))

/-- Lines 631-636 / 728: comma-joined supplier field of an award. -/
def suppliersJoin (a : Award) (proj : Supplier → Option String) : String :=
  String.intercalate ", " ((a.suppliers.getD []).map (fun s => (proj s).getD "N/A"))

/-- Lines 665-668: `Days to Award`.  `parse` abstracts
`pd.to_datetime(_, errors=coerce, utc=True)` as epoch seconds with `none` for
`NaT`; when either present date fails to parse the subtraction is `NaT`, and
`int(NaT.total_seconds() // 86400)` = `int(nan)` raises `ValueError`. -/
def daysToAward (parse : String → Option Int) (r : Release) : Except PyErr FV :=
  match contract0 r with
  | .error e => .error e
  | .ok c =>
    if truthyStr c.dateSigned && truthyStr r.date then
      match parse (r.date.getD ""), parse (c.dateSigned.getD "") with
      | some a, some b => .ok (.i (Int.fdiv (a - b) 86400))
      | _, _ => .error .valueError
    else .ok (.s "")

/-- Lines 740-745: award-record CPV — first award item that carries a
non-empty `additionalClassifications`. -/
def awardCPV (a : Award) : Except PyErr FV :=
  match (a.items.getD []).find? (fun it => truthyClasses it.additionalClassifications) with
  | none => okS "N/A"
  | some it =>
    match pyIndex0 (it.additionalClassifications.getD [{}]) with
    | .error e => .error e
    | .ok c => okNA c.id

/-- UK1-3 planning notice fields (app.py lines 385-434), in source order. -/
def planningFields (r : Release) (nt : String) (isU : Bool) (lots : List Lot) :
    List (String × Except PyErr FV) :=
  [ ("OCID", okNA r.ocid),
    ("Notice Type", okS nt),
    ("Is Update", .ok (.b isU)),
    ("Published Date", okNA r.date),
    ("Notice ID", okNA r.id),
    ("Reference", okNA (tdr r).id),
    ("Notice Title", okNA (tdr r).title),
    ("Notice Description", okNA (tdr r).description),
    ("Value ex VAT", .ok (fvAmount ((tdr r).value.getD {}).amount)),
    ("Value inc VAT", .ok (fvAmount ((tdr r).value.getD {}).amountGross)),
    ("Currency", okNA ((tdr r).value.getD {}).currency),
    ("Threshold", okS (thresholdLabel ((tdr r).aboveThreshold.getD false))),
    ("Contract Start Date", (lot0 r).map (fun l => .s ((l.contractPeriod.getD {}).startDate.getD "N/A"))),
    ("Contract End Date", (lot0 r).map (fun l => .s ((l.contractPeriod.getD {}).endDate.getD "N/A"))),
    ("Publication date of tender notice (estimated)", okNA ((tdr r).communication.getD {}).futureNoticeDate),
    ("Main Category", okNA (tdr r).mainProcurementCategory),
    ("CPV Code", cpvNotice r lots),
    ("Submission Deadline", okNA ((tdr r).tenderPeriod.getD {}).endDate),
    ("Enquiry Deadline", (pyIndex0 ((r.planning.getD {}).milestones.getD [{}])).map (fun m => .s (m.dueDate.getD "N/A"))),
    ("Estimated Award Date", okNA ((tdr r).awardPeriod.getD {}).endDate),
    ("Award Criteria", noticeAwardCriteria r lots),
    ("Framework Agreement", okS (frameworkLabel (tdr r))),
    ("Call off method", okS (callOffLabel (tdr r))),
    ("Procedure Type", okNA (tdr r).procurementMethodDetails),
    ("Procedure Description", okNA ((tdr r).procedure.getD {}).features),
    ("Contracting Authority", okNA (r.buyer.getD {}).name),
    ("PPON", okNA (r.buyer.getD {}).id),
    ("Contact Name", (party0 r).map (fun p => .s ((p.contactPoint.getD {}).name.getD "N/A"))),
    ("Contact Email", (party0 r).map (fun p => .s ((p.contactPoint.getD {}).email.getD "N/A"))) ]

/-- UK4 tender notice fields (app.py lines 476-530), in source order. -/
def uk4Fields (r : Release) (nt : String) (isU : Bool) (lots : List Lot) :
    List (String × Except PyErr FV) :=
  [ ("OCID", okNA r.ocid),
    ("Notice Type", okS nt),
    ("Is Update", .ok (.b isU)),
    ("Published Date", okNA r.date),
    ("Notice ID", okNA r.id),
    ("Reference", okNA (tdr r).id),
    ("Notice Title", okNA (tdr r).title),
    ("Notice Description", okNA (tdr r).description),
    ("Value ex VAT", .ok (fvAmount ((tdr r).value.getD {}).amount)),
    ("Value inc VAT", .ok (fvAmount ((tdr r).value.getD {}).amountGross)),
    ("Currency", okNA ((tdr r).value.getD {}).currency),
    ("Threshold", okS (thresholdLabel ((tdr r).aboveThreshold.getD false))),
    ("Contract Start Date", (lot0 r).map (fun l => .s ((l.contractPeriod.getD {}).startDate.getD "N/A"))),
    ("Contract End Date", (lot0 r).map (fun l => .s ((l.contractPeriod.getD {}).endDate.getD "N/A"))),
    ("Renewal", okNA ((tdr r).renewal.getD {}).description),
    ("Options", okNA ((tdr r).options.getD {}).description),
    ("Main Category", okNA (tdr r).mainProcurementCategory),
    ("CPV Code", cpvNotice r lots),
    ("Particular Suitability", particularSuitability r),
    ("Submission Deadline", okNA ((tdr r).tenderPeriod.getD {}).endDate),
    ("Submission Method", okNA (tdr r).submissionMethodDetails),
    ("Enquiry Deadline", okNA ((tdr r).enquiryPeriod.getD {}).endDate),
    ("Estimated Award Date", okNA ((tdr r).awardPeriod.getD {}).endDate),
    ("Award Criteria", noticeAwardCriteria r lots),
    ("Framework Agreement", okS (frameworkLabel (tdr r))),
    ("Call off method", okS (callOffLabel (tdr r))),
    ("Procedure Type", okNA (tdr r).procurementMethodDetails),
    ("Contracting Authority", okNA (r.buyer.getD {}).name),
    ("PPON", okNA (r.buyer.getD {}).id),
    ("Contact Name", (party0 r).map (fun p => .s ((p.contactPoint.getD {}).name.getD "N/A"))),
    ("Contact Email", (party0 r).map (fun p => .s ((p.contactPoint.getD {}).email.getD "N/A"))) ]

/-- UK12 termination notice fields (app.py lines 568-577). -/
def uk12Fields (r : Release) (nt : String) (isU : Bool) :
    List (String × Except PyErr FV) :=
  [ ("OCID", okNA r.ocid),
    ("Notice Type", okS nt),
    ("Is Update", .ok (.b isU)),
    ("Published Date", okNA r.date),
    ("Notice ID", okNA r.id),
    ("Reference", okNA (tdr r).id),
    ("Notice Title", okNA (tdr r).title),
    ("Cancellation Reason", (award0 r).map (fun a => .s (a.statusDetails.getD "N/A"))) ]

/-- UK5-7 award notice fields (app.py lines 583-669), in source order. -/
def awardNoticeFields (parse : String → Option Int) (r : Release) (nt : String)
    (isU : Bool) (lots : List Lot) : List (String × Except PyErr FV) :=
  [ ("OCID", okNA r.ocid),
    ("Notice Type", okS nt),
    ("Is Update", .ok (.b isU)),
    ("Published Date", okNA r.date),
    ("Notice ID", okNA r.id),
    ("Reference", okNA (tdr r).id),
    ("Notice Title", okNA (tdr r).title),
    ("Notice Description", okNA (tdr r).description),
    ("Awarded Amount ex VAT", awardedCell r nt (fun v => fvAmount v.amount)),
    ("Awarded Amount inc VAT", awardedCell r nt (fun v => fvAmount v.amountGross)),
    ("Currency", awardedCell r nt (fun v => .s (v.currency.getD "N/A"))),
    ("Threshold", threshold567 r nt),
    ("Earliest date the contract will be signed", earliestSigned r),
    ("Contract Start Date", period567 r nt (fun p => p.startDate)),
    ("Contract End Date", period567 r nt (fun p => p.endDate)),
    ("Contract Signature Date", (contract0 r).map (fun c => .s (c.dateSigned.getD "N/A"))),
    ("Suppliers", (award0 r).map (fun a => .s (suppliersJoin a (fun s => s.name)))),
    ("Supplier ID", (award0 r).map (fun a => .s (suppliersJoin a (fun s => s.id)))),
    ("Main Category",
      if nt = "UK6" ∨ nt = "UK7" then okS "See awards sheet"
      else (award0 r).map (fun a => .s (a.mainProcurementCategory.getD "N/A"))),
    ("CPV Code", cpvNotice r lots),
    ("Submission Deadline", okNA ((tdr r).tenderPeriod.getD {}).endDate),
    ("Procurement Method", okNA (tdr r).procurementMethodDetails),
    ("Number of Tenders received", .ok (bidStat r "bids")),
    ("Number of Tenders assessed", .ok (bidStat r "finalStageBids")),
    ("Award decision date", (award0 r).map (fun a => .s (a.date.getD "N/A"))),
    ("Date assessment summaries sent", (award0 r).map (fun a => .s (a.assessmentSummariesDateSent.getD "N/A"))),
    ("Contracting Authority", okNA (r.buyer.getD {}).name),
    ("PPON", okNA (r.buyer.getD {}).id),
    ("Contact Name", (party0 r).map (fun p => .s ((p.contactPoint.getD {}).name.getD "N/A"))),
    ("Contact Email", (party0 r).map (fun p => .s ((p.contactPoint.getD {}).email.getD "N/A"))),
    ("Days to Award", daysToAward parse r) ]

/-- Per-lot sub-record fields (app.py lines 437-467; repeated verbatim at
535-565 and 673-703), in source order. -/
def lotFields (r : Release) (nt : String) (isU : Bool) (idx : Nat) (l : Lot) :
    List (String × Except PyErr FV) :=
  [ ("OCID", okNA r.ocid),
    ("Notice Type", okS nt),
    ("Is Update", .ok (.b isU)),
    ("Lot Number", .ok (.i (idx : Int))),
    ("Lot Title", okNA l.title),
    ("Lot Description", okNA l.description),
    ("Lot Value ex VAT", .ok (fvAmount (l.value.getD {}).amount)),
    ("Lot Value inc VAT", .ok (fvAmount (l.value.getD {}).amountGross)),
    ("Lot Currency", okNA (l.value.getD {}).currency),
    ("Lot Start Date", okNA (l.contractPeriod.getD {}).startDate),
    ("Lot End Date", okNA (l.contractPeriod.getD {}).endDate),
    ("SME Suitable", .ok (.b ((l.suitability.getD {}).sme.getD false))),
    ("VCSE Suitable", .ok (.b ((l.suitability.getD {}).vcse.getD false))),
    ("Award Criteria", .ok (lotAwardCriteria l)),
    ("CPV Code", lotCPV r l) ]

/-- Per-award sub-record fields for UK6/UK7 (app.py lines 709-746). -/
def awardFields (r : Release) (nt : String) (isU : Bool) (a : Award) :
    List (String × Except PyErr FV) :=
  [ ("OCID", okNA r.ocid),
    ("Notice Type", okS nt),
    ("Notice ID", okNA r.id),
    ("Published Date", okNA r.date),
    ("Is Update", .ok (.b isU)),
    ("Contract Title", okNA a.title),
    ("Value ex VAT",
      if nt = "UK7" then (contract0 r).map (fun c => fvAmount (c.value.getD {}).amount)
      else .ok (fvAmount (a.value.getD {}).amount)),
    ("Value inc VAT",
      if nt = "UK7" then (contract0 r).map (fun c => fvAmount (c.value.getD {}).amountGross)
      else .ok (fvAmount (a.value.getD {}).amountGross)),
    ("Currency", okNA (a.value.getD {}).currency),
    ("Suppliers", okS (suppliersJoin a (fun s => s.name))),
    ("Contract Start Date",
      if nt = "UK7" then (contract0 r).map (fun c => .s ((c.period.getD {}).startDate.getD "N/A"))
      else .ok (.s ((a.contractPeriod.getD {}).startDate.getD "N/A"))),
    ("Contract End Date",
      if nt = "UK7" then (contract0 r).map (fun c => .s ((c.period.getD {}).endDate.getD "N/A"))
      else .ok (.s ((a.contractPeriod.getD {}).endDate.getD "N/A"))),
    ("Main Category", okS (a.mainProcurementCategory.getD ((tdr r).mainProcurementCategory.getD "N/A"))),
    ("CPV Code", awardCPV a) ]

/-- The six per-run record collections, one per destination sheet. -/
structure Records where
  planningRecs : List Rec := []
  tenderRecs : List Rec := []
  awardNoticeRecs : List Rec := []
  lotRecs : List Rec := []
  awardRecs : List Rec := []
  terminationRecs : List Rec := []
deriving DecidableEq, Repr

/-- Lot sub-records for a multi-lot notice (`for idx, lot in enumerate(lots, 1)`). -/
def buildLotRecords (r : Release) (nt : String) (isU : Bool) :
    Nat → List Lot → Except PyErr (List Rec)
  | _, [] => .ok []
  | idx, l :: ls =>
    match buildRecord (lotFields r nt isU idx l) with
    | .error e => .error e
    | .ok rec1 =>
      match buildLotRecords r nt isU (idx + 1) ls with
      | .error e => .error e
      | .ok rest => .ok (rec1 :: rest)

/-- Award sub-records for UK6/UK7 (`for award in awards`, lines 707-747). -/
def buildAwardRecords (r : Release) (nt : String) (isU : Bool) :
    List Award → Except PyErr (List Rec)
  | [] => .ok []
  | a :: rest =>
    match buildRecord (awardFields r nt isU a) with
    | .error e => .error e
    | .ok rec1 =>
      match buildAwardRecords r nt isU rest with
      | .error e => .error e
      | .ok tail => .ok (rec1 :: tail)

/-- Lines 348-747: process one release into its record collections.  There is
no per-release exception handler in the source; any raise propagates. -/
def processRelease (parse : String → Option Int) (r : Release) : Except PyErr Records :=
  match classify r with
  | .error e => .error e
  | .ok none => .ok {}
  | .ok (some ntOpt) =>
    let lots := lotsOf r
    let isU := isUpdate r
    match ntOpt with
    | none => .ok {}
    | some nt =>
      if nt = "UK1" ∨ nt = "UK2" ∨ nt = "UK3" then
        if r.planning.isSome then
          match buildRecord (planningFields r nt isU lots) with
          | .error e => .error e
          | .ok rec1 =>
            match (if lots.length > 1 then buildLotRecords r nt isU 1 lots else .ok []) with
            | .error e => .error e
            | .ok lrecs => .ok { planningRecs := [rec1], lotRecs := lrecs }
        else .ok {}
      else if nt = "UK4" then
        match buildRecord (uk4Fields r nt isU lots) with
        | .error e => .error e
        | .ok rec1 =>
          match (if lots.length > 1 then buildLotRecords r nt isU 1 lots else .ok []) with
          | .error e => .error e
          | .ok lrecs => .ok { tenderRecs := [rec1], lotRecs := lrecs }
      else if nt = "UK12" then
        match buildRecord (uk12Fields r nt isU) with
        | .error e => .error e
        | .ok rec1 => .ok { terminationRecs := [rec1] }
      else if nt = "UK5" ∨ nt = "UK6" ∨ nt = "UK7" then
        match buildRecord (awardNoticeFields parse r nt isU lots) with
        | .error e => .error e
        | .ok rec1 =>
          match (if lots.length > 1 then buildLotRecords r nt isU 1 lots else .ok []) with
          | .error e => .error e
          | .ok lrecs =>
            match (if nt = "UK6" ∨ nt = "UK7" then buildAwardRecords r nt isU (r.awards.getD []) else .ok []) with
            | .error e => .error e
            | .ok arecs => .ok { awardNoticeRecs := [rec1], lotRecs := lrecs, awardRecs := arecs }
      else .ok {}

/-- Concatenate two record collections sheet-wise. -/
def appendRecords (x y : Records) : Records :=
  { planningRecs := x.planningRecs ++ y.planningRecs,
    tenderRecs := x.tenderRecs ++ y.tenderRecs,
    awardNoticeRecs := x.awardNoticeRecs ++ y.awardNoticeRecs,
    lotRecs := x.lotRecs ++ y.lotRecs,
    awardRecs := x.awardRecs ++ y.awardRecs,
    terminationRecs := x.terminationRecs ++ y.terminationRecs }

/-- The per-run release loop (line 348): an exception in any release aborts
processing of every release after it. -/
def processReleases (parse : String → Option Int) : List Release → Except PyErr Records
  | [] => .ok {}
  | r :: rs =>
    match processRelease parse r with
    | .error e => .error e
    | .ok a =>
      match processReleases parse rs with
      | .error e => .error e
      | .ok b => .ok (appendRecords a b)

/-- Line 53: the configured organisation filter id. -/
def MY_ORG_ID : String := "GB-PPON-PJDG-6588-XDMM"

/-- Lines 167-172: keep a release when the buyer id matches, or when the buyer
id is absent and some party id matches. -/
def orgFilter (rels : List Release) : List Release :=
  rels.filter (fun r =>
    (r.buyer.getD {}).id == some MY_ORG_ID
      || ((r.buyer.getD {}).id == none
            && (r.parties.getD []).any (fun p => p.id == some MY_ORG_ID)))

/-- The observable outcome of one page request in `fetch_releases`.  The
upstream HTTP exchange and the leading-zero JSON repair (lines 141-147) are
abstracted into which branch of the page handler fires: `timeout` /
`reqError` are the two `except` clauses, `malformedJson` is a
`json.JSONDecodeError` after the repair, and `page` is a decoded body whose
`next` is `none` for no `links.next`, `some none` for a next link without a
parsable `cursor`, and `some (some c)` for a cursor. -/
inductive PageResult where
  | timeout
  | reqError
  | malformedJson
  | page (releases : List Release) (next : Option (Option String))
deriving DecidableEq

/-- Lines 133-203: the `while True` fetch loop over successive page outcomes.
Note the source's JSON-decode branch (lines 149-159) executes `break` without
setting `error_occurred`.  The `[]` case (upstream stream exhausted) is
unreachable for any terminating run and is kept only for totality. -/
def fetchLoop : List PageResult → List Release → List Release × Bool
  | [], acc => (acc, false)
  | p :: ps, acc =>
    match p with
    | .timeout => (acc, true)
    | .reqError => (acc, true)
    | .malformedJson => (acc, false)
    | .page rels next =>
      if rels.isEmpty then (acc, false)
      else
        let acc2 := acc ++ orgFilter rels
        match next with
        | none => (acc2, false)
        | some none => (acc2, false)
        | some (some _) => fetchLoop ps acc2

/-- Lines 116-205: `fetch_releases() -> (all_releases, error_occurred)`. -/
def fetchReleasesModel (pages : List PageResult) : List Release × Bool :=
  fetchLoop pages []

/-- The state of the Metadata sheet: header cell A1, `last_fetch_date` B1,
`to_date` override B2, status B3.  An empty string models an empty cell. -/
structure MetaState where
  a1 : String := ""
  b1 : String := ""
  b2 : Option String := none
  b3 : String := ""
deriving DecidableEq, Repr

/-- The six record sheets as row collections (header rows abstracted away). -/
structure Sheets where
  planningSheet : List Rec := []
  tenderSheet : List Rec := []
  awardNoticeSheet : List Rec := []
  lotsSheet : List Rec := []
  awardsSheet : List Rec := []
  terminationsSheet : List Rec := []
deriving DecidableEq, Repr

/-- Append the run's records to the sheets (lines 784-833; append-only,
header handling abstracted). -/
def appendSheets (s : Sheets) (recs : Records) : Sheets :=
  { planningSheet := s.planningSheet ++ recs.planningRecs,
    tenderSheet := s.tenderSheet ++ recs.tenderRecs,
    awardNoticeSheet := s.awardNoticeSheet ++ recs.awardNoticeRecs,
    lotsSheet := s.lotsSheet ++ recs.lotRecs,
    awardsSheet := s.awardsSheet ++ recs.awardRecs,
    terminationsSheet := s.terminationsSheet ++ recs.terminationRecs }

/-- A relaxed stand-in for `datetime.strptime(s, %Y-%m-%dT%H:%M:%S)`
succeeding: 19 characters shaped like an ISO timestamp.  Range checks of the
real parser are not modelled; no claim depends on them. -/
def validFmt (s : String) : Bool :=
  let cs := s.toList
  cs.length == 19 && (List.range 19).all (fun i =>
    let c := cs.getD i ' '
    if i == 4 || i == 7 then c == '-'
    else if i == 10 then c == 'T'
    else if i == 13 || i == 16 then c == ':'
    else c.isDigit)

/-- Lines 77-92: `get_to_date()` — the B2 override when present and
well-formed, else the current time (passed in as `now`). -/
def getToDate (now : String) (st : MetaState) : String :=
  match st.b2 with
  | some s => if s ≠ "" && validFmt s then s else now
  | none => now

/-- Lines 316-318: ensure the Metadata header; when A1 is not
`last_fetch_date` the repair rewrites A1:B1, resetting B1 to the default
epoch regardless of its previous content. -/
def initMetadata (st : MetaState) : MetaState :=
  if st.a1 ≠ "last_fetch_date" then { st with a1 := "last_fetch_date", b1 := "2025-02-24T00:00:00" }
  else st

/-- The body of `fetch_and_process_data` inside its `try` (lines 309-841):
metadata repair, fetch, guard on `fetch_error`, per-release processing, sheet
writes, then `update_last_fetch_date(to_date)` and status.  The `Except`
result carries an uncaught Python exception out to the handler. -/
def runBody (now : String) (parse : String → Option Int) (pages : List PageResult)
    (st : MetaState) (sheets : Sheets) : (MetaState × Sheets) × Except PyErr Bool :=
  let st1 := initMetadata st
  let fetched := fetchReleasesModel pages
  if fetched.2 then
    (({ st1 with b3 := "Fetch failed" }, sheets), .ok false)
  else
    match processReleases parse fetched.1 with
    | .error e => ((st1, sheets), .error e)
    | .ok recs =>
      let toD := getToDate now st1
      (({ st1 with b1 := toD, b3 := "success" }, appendSheets sheets recs), .ok true)

/-- Application-level mutable state: the run-in-progress flag plus the sink. -/
structure AppState where
  jobRunning : Bool := false
  meta : MetaState := {}
  sheets : Sheets := {}
deriving DecidableEq, Repr

/-- Line 307: `job_running = True` on entry to `fetch_and_process_data`. -/
def jobEntry (app : AppState) : AppState := { app with jobRunning := true }

/-- Lines 303-850: `fetch_and_process_data`.  The `except Exception` branch
(lines 846-848) converts an uncaught exception into a `False` result; the
`finally` (lines 849-850) clears `job_running` on every path. -/
def fetchAndProcessData (now : String) (parse : String → Option Int)
    (pages : List PageResult) (app : AppState) : AppState × Bool :=
  let app1 := jobEntry app
  let r := runBody now parse pages app1.meta app1.sheets
  let ok := match r.2 with
    | .ok v => v
    | .error _ => false
  ({ jobRunning := false, meta := r.1.1, sheets := r.1.2 }, ok)

/-- Lines 854-872: the `/run` trigger — reject with `in_progress` when the
flag is set, otherwise start a run. -/
def runJob (app : AppState) : String :=
  if app.jobRunning then "in_progress" else "started"

/-- The spec's base classification rule (§4.1 steps 1-2): the first non-empty
document list in contract → award → tender → planning priority order. -/
def priorityDocs (r : Release) : List Doc :=
  if contractDocsOf r ≠ [] then contractDocsOf r
  else if awardDocsOf r ≠ [] then awardDocsOf r
  else if tenderDocsOf r ≠ [] then tenderDocsOf r
  else planningDocsOf r

/-- A date parser that accepts nothing (sufficient for claims that never reach
`Days to Award` with both dates present). -/
def pNone : String → Option Int := fun _ => none

/-- An app state whose Metadata sheet has not been initialised: the header
cell is empty while B1 already holds a fetch date. -/
def c1App : AppState := { meta := { a1 := "", b1 := "2025-03-01T00:00:00" } }

/-- An app state whose Metadata sheet is initialised. -/
def c1AppInit : AppState := { meta := { a1 := "last_fetch_date", b1 := "2025-03-01T00:00:00" } }

/-- A release carrying only the configured buyer id (classified as skip). -/
def c2RelOrg : Release := { buyer := some { id := some MY_ORG_ID } }

/-- A fetch run whose second page body is malformed JSON; a third page exists
but is never requested. -/
def c2Pages : List PageResult :=
  [.page [c2RelOrg] (some (some "cursor1")), .malformedJson,
   .page [{ ocid := some "never-fetched", buyer := some { id := some MY_ORG_ID } }] none]

/-- An initialised app state for the malformed-JSON run. -/
def c2App : AppState := { meta := { a1 := "last_fetch_date", b1 := "2025-03-01T00:00:00" } }

/-- A cancelled-award release whose award documents say UK6 while the tender
documents say UK12: the override and the base priority rule disagree. -/
def c3Rel : Release :=
  { awards := some [{ status := some "cancelled", documents := some [{ noticeType := some "UK6" }] }],
    tender := some { documents := some [{ noticeType := some "UK12" }] } }

/-- A plain release classified from its tender documents (no awards). -/
def c3WitRel : Release := { tender := some { documents := some [{ noticeType := some "UK4" }] } }

/-- A release with no documents in any of the four candidate lists. -/
def c3EmptyRel : Release := {}

/-- A first award with `status = "cancelled"` and nothing else. -/
def c4Award : Award := { status := some "cancelled" }

/-- A cancelled-award release whose tender documents carry UK12. -/
def c4Rel : Release :=
  { awards := some [c4Award],
    tender := some { documents := some [{ noticeType := some "UK12" }] } }

/-- A UK4 release whose `tender.lots` key is present but empty. -/
def c5EmptyLots : Release :=
  { tender := some { documents := some [{ noticeType := some "UK4" }], lots := some [] } }

/-- A UK4 release whose `tender.lots` key is absent. -/
def c5NoLots : Release :=
  { tender := some { documents := some [{ noticeType := some "UK4" }] } }

/-- A release whose extraction raises: cancelled first award (with award
documents) but an empty tender document list, so the override's
`documents[-1]` raises `IndexError`. -/
def c6Bad : Release :=
  { awards := some [{ status := some "cancelled", documents := some [{ noticeType := some "UK6" }] }] }

/-- A well-formed UK4 release processed after the raising one. -/
def c6Good : Release := { tender := some { documents := some [{ noticeType := some "UK4" }] } }

/-- The raising release, carrying the configured buyer id so it passes the
organisation filter. -/
def c6BadOrg : Release :=
  { buyer := some { id := some MY_ORG_ID },
    awards := some [{ status := some "cancelled", documents := some [{ noticeType := some "UK6" }] }] }

/-- A single successful page delivering the raising release. -/
def c6Pages : List PageResult := [.page [c6BadOrg] none]

/-- A UK7 release with `contracts[0].value.amount = 50000` and
`awards[0].value.amount = 45000`. -/
def c7WithContractValue : Release :=
  { date := some "2025-01-01T00:00:00",
    contracts := some [{ documents := some [{ noticeType := some "UK7" }],
                         value := some { amount := some 50000 } }],
    awards := some [{ value := some { amount := some 45000 } }] }

/-- A UK7 release with no `contracts[0].value` but `awards[0].value.amount = 45000`. -/
def c7NoContractValue : Release :=
  { date := some "2025-01-01T00:00:00",
    contracts := some [{ documents := some [{ noticeType := some "UK7" }] }],
    awards := some [{ value := some { amount := some 45000 } }] }

/-- CPV classification with id 45000000. -/
def c8ClassA : Classification := { id := some "45000000" }

/-- Tender item carrying that classification. -/
def c8ItemA : Item := { additionalClassifications := some [c8ClassA] }

/-- The single lot of the one-lot UK4 scenario. -/
def c8LotA : Lot := { id := some "lot-1" }

/-- First lot of the two-lot UK4 scenario. -/
def c8LotB1 : Lot := { id := some "lot-1" }

/-- Second lot of the two-lot UK4 scenario. -/
def c8LotB2 : Lot := { id := some "lot-2" }

/-- A UK4 release with exactly one lot and a first-item CPV code. -/
def c8OneLot : Release :=
  { tender := some { documents := some [{ noticeType := some "UK4" }],
                     lots := some [c8LotA],
                     items := some [c8ItemA] } }

/-- A UK4 release with exactly two lots. -/
def c8TwoLots : Release :=
  { tender := some { documents := some [{ noticeType := some "UK4" }],
                     lots := some [c8LotB1, c8LotB2] } }

/-- A concrete stand-in for `pd.to_datetime(_, errors=coerce)`: parses the two
timestamps used by the Days-to-Award scenarios and coerces all else to NaT. -/
def c9Parse : String → Option Int := fun s =>
  if s = "2025-01-10T00:00:00Z" then some 864000
  else if s = "2025-01-07T00:00:00Z" then some 604800
  else none

/-- A UK6 release whose publication date and contract signature date both
parse, three days apart. -/
def c9BothParse : Release :=
  { date := some "2025-01-10T00:00:00Z",
    awards := some [{ documents := some [{ noticeType := some "UK6" }] }],
    contracts := some [{ dateSigned := some "2025-01-07T00:00:00Z" }] }

/-- A UK6 release whose contract has no `dateSigned`. -/
def c9NoSigned : Release :=
  { date := some "2025-01-10T00:00:00Z",
    awards := some [{ documents := some [{ noticeType := some "UK6" }] }],
    contracts := some [{ }] }

/-- A UK6 release whose `dateSigned` is present but unparsable. -/
def c9Unparsable : Release :=
  { date := some "2025-01-10T00:00:00Z",
    awards := some [{ documents := some [{ noticeType := some "UK6" }] }],
    contracts := some [{ dateSigned := some "not-a-date" }] }

theorem pyLast_ok_iff {α : Type} (xs : List α) (d : α) :
    pyLast xs = .ok d ↔ xs.getLast? = some d := by
  unfold pyLast
  cases h : xs.getLast? <;> simp

theorem pyLast_of_ne {α : Type} (xs : List α) (h : xs ≠ []) :
    ∃ d, xs.getLast? = some d ∧ pyLast xs = .ok d := by
  cases hL : xs.getLast? with
  | none => exact absurd (List.getLast?_eq_none_iff.mp hL) h
  | some d => exact ⟨d, rfl, (pyLast_ok_iff xs d).mpr hL⟩

theorem buildRecord_lookup (fs : List (String × Except PyErr FV)) (rec1 : Rec)
    (n : String) (fv : FV) (h : buildRecord fs = .ok rec1)
    (hf : fvLookup n fs = some (.ok fv)) : fvLookup n rec1 = some fv := by
  induction fs generalizing rec1 with
  | nil => simp [fvLookup] at hf
  | cons p rest ih =>
    obtain ⟨m, v⟩ := p
    cases v with
    | error e => simp [buildRecord] at h
    | ok fv0 =>
      cases htail : buildRecord rest with
      | error e => simp [buildRecord, htail] at h
      | ok tail =>
        simp only [buildRecord, htail] at h
        cases h
        by_cases hnm : n = m
        · subst hnm
          simp only [fvLookup, if_pos rfl] at hf ⊢
          cases hf
          rfl
        · simp only [fvLookup, if_neg hnm] at hf ⊢
          exact ih tail htail hf

/-- Claim C1, counterexample.  On a run whose fetch reports `had_error = true`
but whose Metadata header cell is not yet `last_fetch_date`, the header repair
(app.py lines 316-318) rewrites `A1:B1` before fetching, so the persisted
`last_fetch_date` after the run differs from its value before the run. -/
theorem c1_counterexample :
    (fetchReleasesModel [PageResult.timeout]).2 = true
      ∧ (fetchAndProcessData "2025-06-01T00:00:00" pNone [PageResult.timeout] c1App).1.meta.b1
          ≠ c1App.meta.b1 := by
  constructor
  · rfl
  · decide

/-- Claim C1, amended: provided the Metadata sheet is already initialised
(`A1 = "last_fetch_date"`), a run whose `fetch_releases` reports
`had_error = true` leaves `last_fetch_date` (cell B1) unchanged, writes no
record rows to any sheet, and returns failure. -/
theorem c1_fetch_error_preserves_state (now : String) (parse : String → Option Int)
    (pages : List PageResult) (app : AppState)
    (hinit : app.meta.a1 = "last_fetch_date")
    (herr : (fetchReleasesModel pages).2 = true) :
    (fetchAndProcessData now parse pages app).1.meta.b1 = app.meta.b1
      ∧ (fetchAndProcessData now parse pages app).1.sheets = app.sheets
      ∧ (fetchAndProcessData now parse pages app).2 = false := by
  unfold fetchAndProcessData runBody jobEntry initMetadata
  simp [hinit, herr]

/-- Claim C1, witness: the amended theorem at an initialised metadata sheet
and a timed-out fetch. -/
theorem c1_witness :
    (fetchAndProcessData "2025-06-01T00:00:00" pNone [PageResult.timeout] c1AppInit).1.meta.b1
        = c1AppInit.meta.b1
      ∧ (fetchAndProcessData "2025-06-01T00:00:00" pNone [PageResult.timeout] c1AppInit).1.sheets
        = c1AppInit.sheets
      ∧ (fetchAndProcessData "2025-06-01T00:00:00" pNone [PageResult.timeout] c1AppInit).2 = false :=
  c1_fetch_error_preserves_state "2025-06-01T00:00:00" pNone [PageResult.timeout] c1AppInit
    (by rfl) (by rfl)

/-- Claim C2 is false on the code: a malformed-JSON page breaks out of the
fetch loop (the later page is never requested) but `error_occurred` stays
`false` (app.py lines 149-159 set no flag), so the run is treated as a
success — it proceeds to write sheets and advances `last_fetch_date`. -/
theorem c2_malformed_json_not_flagged :
    fetchReleasesModel c2Pages = ([c2RelOrg], false)
      ∧ (fetchAndProcessData "2025-06-01T00:00:00" pNone c2Pages c2App).2 = true
      ∧ (fetchAndProcessData "2025-06-01T00:00:00" pNone c2Pages c2App).1.meta.b1
          = "2025-06-01T00:00:00" :=
  ⟨rfl, rfl, rfl⟩

/-- Claim C5 is false on the code: a UK4 release whose `tender.lots` key is
present but an empty list raises `IndexError` (through
`.get("lots", [{}])[0]`, app.py line 489) instead of yielding the sentinel,
while the same release with the key absent extracts `"N/A"` without raising. -/
theorem c5_empty_container_raises :
    processRelease pNone c5EmptyLots = .error .indexError
      ∧ (processRelease pNone c5NoLots).map
          (fun recs => recs.tenderRecs.map (fvLookup "Contract Start Date"))
          = .ok [some (.s "N/A")] :=
  ⟨rfl, rfl⟩

/-- Claim C6, counterexample: an extraction error in one release (cancelled
first award with an empty tender document list, raising `IndexError` at
`documents[-1]`, app.py line 377) aborts the whole run — the following
well-formed UK4 release, which alone yields one tender record, is never
processed. -/
theorem c6_counterexample :
    processReleases pNone [c6Bad, c6Good] = .error .indexError
      ∧ (processReleases pNone [c6Good]).map (fun recs => recs.tenderRecs.length) = .ok 1 :=
  ⟨rfl, rfl⟩

/-- Claim C6, amended: there is no per-release handler — an extraction error
propagates out of the release loop to the run-level `except` of
`fetch_and_process_data`, so the releases after the failing one are not
processed, the run returns failure, and no sheet is updated. -/
theorem c6_error_aborts_run :
    (∀ (parse : String → Option Int) (r : Release) (rs : List Release) (e : PyErr),
        processRelease parse r = .error e → processReleases parse (r :: rs) = .error e)
      ∧ (∀ (now : String) (parse : String → Option Int) (pages : List PageResult)
            (app : AppState) (e : PyErr),
          processReleases parse (fetchReleasesModel pages).1 = .error e →
          (fetchReleasesModel pages).2 = false →
          (fetchAndProcessData now parse pages app).2 = false
            ∧ (fetchAndProcessData now parse pages app).1.sheets = app.sheets) := by
  constructor
  · intro parse r rs e h
    simp [processReleases, h]
  · intro now parse pages app e hproc herr
    unfold fetchAndProcessData runBody jobEntry
    simp [herr, hproc]

/-- Claim C6, witness: the amended theorem at the raising release, both as a
release list and through the whole pipeline. -/
theorem c6_witness :
    processReleases pNone [c6Bad] = .error .indexError
      ∧ (fetchAndProcessData "2025-06-01T00:00:00" pNone c6Pages c2App).2 = false
      ∧ (fetchAndProcessData "2025-06-01T00:00:00" pNone c6Pages c2App).1.sheets = c2App.sheets := by
  refine ⟨c6_error_aborts_run.1 pNone c6Bad [] .indexError (by rfl), ?_, ?_⟩
  · exact (c6_error_aborts_run.2 "2025-06-01T00:00:00" pNone c6Pages c2App .indexError
      (by rfl) (by rfl)).1
  · exact (c6_error_aborts_run.2 "2025-06-01T00:00:00" pNone c6Pages c2App .indexError
      (by rfl) (by rfl)).2

/-- Claim C7 is half false on the code.  First conjunct (true half): with
`contracts[0].value.amount = 50000` and `awards[0].value.amount = 45000` the
UK7 notice record and the per-award record both carry 50000 (contract value
takes precedence).  Second conjunct (false half): when the contract value is
absent, the per-award `"Value ex VAT"` is the sentinel `"N/A"` — the code
never falls back to the award's own value 45000, despite its own comment
(app.py line 716). -/
theorem c7_uk7_value_no_fallback :
    (processRelease pNone c7WithContractValue).map
        (fun recs => (recs.awardNoticeRecs.map (fvLookup "Awarded Amount ex VAT"),
                      recs.awardRecs.map (fvLookup "Value ex VAT")))
        = .ok ([some (.i 50000)], [some (.i 50000)])
      ∧ (processRelease pNone c7NoContractValue).map
          (fun recs => (recs.awardNoticeRecs.map (fvLookup "Awarded Amount ex VAT"),
                        recs.awardRecs.map (fvLookup "Value ex VAT")))
          = .ok ([some (.s "N/A")], [some (.s "N/A")]) :=
  ⟨rfl, rfl⟩

/-- Claim C9 is partly false on the code.  When both dates parse, `Days to
Award` is the floor of the day difference (here 3); when `dateSigned` is
missing the cell is the empty string; but when a date is present and
unparsable, `errors=coerce` yields NaT and `int(NaT.total_seconds() // 86400)`
raises `ValueError` — the claim says the cell would be the empty string. -/
theorem c9_days_to_award :
    (processRelease c9Parse c9BothParse).map
        (fun recs => recs.awardNoticeRecs.map (fvLookup "Days to Award")) = .ok [some (.i 3)]
      ∧ (processRelease c9Parse c9NoSigned).map
          (fun recs => recs.awardNoticeRecs.map (fvLookup "Days to Award")) = .ok [some (.s "")]
      ∧ processRelease c9Parse c9Unparsable = .error .valueError :=
  ⟨rfl, rfl, rfl⟩

theorem applyOverride_not_cancelled (r : Release) (nt0 : Option String)
    (hc : cancelledFirstAward r = false) : applyOverride r nt0 = .ok (some nt0) := by
  unfold applyOverride
  unfold cancelledFirstAward at hc
  cases hA : r.awards with
  | none => rfl
  | some l =>
    cases l with
    | nil => rfl
    | cons a rest =>
      rw [hA] at hc
      simp only [decide_eq_false_iff_not] at hc
      simp [hc]

theorem applyOverride_cancelled (r : Release) (nt0 : Option String) (a : Award)
    (rest : List Award) (hA : r.awards = some (a :: rest))
    (hS : a.status = some "cancelled") :
    applyOverride r nt0 = (pyLast (tenderDocsOf r)).map (fun d2 => some d2.noticeType) := by
  unfold applyOverride
  rw [hA]
  simp only [hS, if_pos]
  cases pyLast (tenderDocsOf r) <;> rfl

theorem classifyAux (r : Release) (docs : List Doc) (hne : docs ≠ [])
    (hc : cancelledFirstAward r = false) :
    (match pyLast docs with
      | Except.error e => Except.error e
      | Except.ok d => applyOverride r d.noticeType)
      = Except.ok ((docs.getLast?).map (fun d => d.noticeType)) := by
  obtain ⟨d, hL, hP⟩ := pyLast_of_ne docs hne
  rw [hP, hL]
  exact applyOverride_not_cancelled r d.noticeType hc

/-- Claim C3, counterexample: for a release whose first award is cancelled
(award documents say UK6 — the first non-empty list in priority order — while
tender documents say UK12) the classification is UK12, not the notice type of
the last document of the first non-empty list. -/
theorem c3_counterexample :
    classify c3Rel = .ok (some (some "UK12"))
      ∧ (((priorityDocs c3Rel).getLast?).map (fun d => d.noticeType)) = some (some "UK6")
      ∧ classify c3Rel ≠ .ok (((priorityDocs c3Rel).getLast?).map (fun d => d.noticeType)) := by
  refine ⟨rfl, rfl, ?_⟩
  show (Except.ok (some (some "UK12")) : Except PyErr (Option (Option String)))
      ≠ Except.ok (some (some "UK6"))
  simp

/-- Claim C3, amended: for every release whose first award is not cancelled,
classification takes the last document of the first non-empty list in the
strict priority order contract → award → tender → planning (lists are not
merged) and reads its `noticeType`; for cancelled first awards the override
of C4 applies instead.  A release with no documents in any of the four lists
is skipped and produces no records (this part holds for all releases). -/
theorem c3_classification_priority :
    (∀ r : Release, cancelledFirstAward r = false →
        classify r = .ok (((priorityDocs r).getLast?).map (fun d => d.noticeType)))
      ∧ (∀ (parse : String → Option Int) (r : Release),
          priorityDocs r = [] → processRelease parse r = .ok {}) := by
  constructor
  · intro r hc
    unfold classify priorityDocs
    by_cases h1 : contractDocsOf r ≠ []
    · rw [if_pos h1, if_pos h1]
      exact classifyAux r (contractDocsOf r) h1 hc
    · rw [if_neg h1, if_neg h1]
      by_cases h2 : awardDocsOf r ≠ []
      · rw [if_pos h2, if_pos h2]
        exact classifyAux r (awardDocsOf r) h2 hc
      · rw [if_neg h2, if_neg h2]
        by_cases h3 : tenderDocsOf r ≠ []
        · rw [if_pos h3, if_pos h3]
          exact classifyAux r (tenderDocsOf r) h3 hc
        · rw [if_neg h3, if_neg h3]
          by_cases h4 : planningDocsOf r ≠ []
          · rw [if_pos h4]
            exact classifyAux r (planningDocsOf r) h4 hc
          · rw [if_neg h4]
            have h4e : planningDocsOf r = [] := not_not.mp h4
            rw [h4e]
            rfl
  · intro parse r hps
    unfold priorityDocs at hps
    by_cases h1 : contractDocsOf r ≠ []
    · rw [if_pos h1] at hps; exact absurd hps h1
    rw [if_neg h1] at hps
    by_cases h2 : awardDocsOf r ≠ []
    · rw [if_pos h2] at hps; exact absurd hps h2
    rw [if_neg h2] at hps
    by_cases h3 : tenderDocsOf r ≠ []
    · rw [if_pos h3] at hps; exact absurd hps h3
    rw [if_neg h3] at hps
    unfold processRelease classify
    rw [if_neg h1, if_neg h2, if_neg h3, if_neg (not_not_intro hps)]

/-- Claim C3, witness: the amended rule evaluated at a tender-documents-only
release (classified UK4), and the skip rule at a documentless release. -/
theorem c3_witness :
    classify c3WitRel = .ok (((priorityDocs c3WitRel).getLast?).map (fun d => d.noticeType))
      ∧ classify c3WitRel = .ok (some (some "UK4"))
      ∧ processRelease pNone c3EmptyRel = .ok {} :=
  ⟨c3_classification_priority.1 c3WitRel (by rfl),
   (c3_classification_priority.1 c3WitRel (by rfl)).trans (by rfl),
   c3_classification_priority.2 pNone c3EmptyRel (by rfl)⟩

/-- Claim C4: whenever a release whose awards list is non-empty and whose
first award has `status = "cancelled"` is classified at all, the resulting
notice type is the `noticeType` of the last entry of `tender.documents` —
never a value taken from `awards[0].documents`. -/
theorem c4_cancelled_uses_tender_docs (r : Release) (a : Award) (rest : List Award)
    (nt : Option String)
    (hA : r.awards = some (a :: rest))
    (hS : a.status = some "cancelled")
    (hC : classify r = .ok (some nt)) :
    ((tenderDocsOf r).getLast?).map (fun d => d.noticeType) = some nt := by
  unfold classify at hC
  rcases hdocs : (if contractDocsOf r ≠ [] then some (contractDocsOf r)
      else if awardDocsOf r ≠ [] then some (awardDocsOf r)
      else if tenderDocsOf r ≠ [] then some (tenderDocsOf r)
      else if planningDocsOf r ≠ [] then some (planningDocsOf r)
      else none) with _ | documents
  · rw [hdocs] at hC
    simp at hC
  · rw [hdocs] at hC
    have hC1 : (match pyLast documents with
        | Except.error e => Except.error e
        | Except.ok d => applyOverride r d.noticeType)
        = Except.ok (some nt) := hC
    cases hP : pyLast documents with
    | error e => rw [hP] at hC1; simp at hC1
    | ok d =>
      rw [hP] at hC1
      have hC2 : applyOverride r d.noticeType = .ok (some nt) := hC1
      rw [applyOverride_cancelled r d.noticeType a rest hA hS] at hC2
      cases hP2 : pyLast (tenderDocsOf r) with
      | error e => rw [hP2] at hC2; simp [Except.map] at hC2
      | ok d2 =>
        rw [hP2] at hC2
        simp only [Except.map, Except.ok.injEq, Option.some.injEq] at hC2
        rw [(pyLast_ok_iff _ _).mp hP2]
        simp [hC2]

/-- Claim C4, witness: a cancelled-award release whose tender documents end in
a UK12 notice is classified UK12 straight from `tender.documents`. -/
theorem c4_witness :
    ((tenderDocsOf c4Rel).getLast?).map (fun d => d.noticeType) = some (some "UK12") :=
  c4_cancelled_uses_tender_docs c4Rel c4Award [] (some "UK12") rfl rfl (by rfl)

/-- Claim C8: for every UK4 release with exactly one lot (whose first tender
item carries a first additional-classification id), the notice record's
`CPV Code` equals `tender.items[0].additionalClassifications[0].id` (not the
lots-sheet sentinel) and no lot records are produced; for every UK4 release
with exactly two lots, the notice record's `CPV Code` equals
`"See lots sheet for CPV codes"` and exactly two lot records are produced,
with `Lot Number` 1 and 2 in lot-list order. -/
theorem c8_uk4_cpv_and_lots :
    (∀ (parse : String → Option Int) (r : Release) (recs : Records) (l : Lot)
        (it : Item) (its : List Item) (c : Classification) (cs : List Classification)
        (cid : String),
        (tdr r).lots = some [l] →
        (tdr r).items = some (it :: its) →
        it.additionalClassifications = some (c :: cs) →
        c.id = some cid →
        classify r = .ok (some (some "UK4")) →
        processRelease parse r = .ok recs →
        recs.tenderRecs.map (fvLookup "CPV Code") = [some (.s cid)] ∧ recs.lotRecs = [])
      ∧ (∀ (parse : String → Option Int) (r : Release) (recs : Records) (l1 l2 : Lot),
        (tdr r).lots = some [l1, l2] →
        classify r = .ok (some (some "UK4")) →
        processRelease parse r = .ok recs →
        recs.tenderRecs.map (fvLookup "CPV Code") = [some (.s "See lots sheet for CPV codes")]
          ∧ recs.lotRecs.map (fvLookup "Lot Number") = [some (.i 1), some (.i 2)]) := by
  constructor
  · intro parse r recs l it its c cs cid hlots hitems haddc hcid hcls hp
    have hlots' : lotsOf r = [l] := by unfold lotsOf; rw [hlots]; rfl
    unfold processRelease at hp
    rw [hcls] at hp
    have hp1 : (match buildRecord (uk4Fields r "UK4" (isUpdate r) (lotsOf r)) with
        | Except.error e => Except.error e
        | Except.ok rec1 =>
          match (if (lotsOf r).length > 1
              then buildLotRecords r "UK4" (isUpdate r) 1 (lotsOf r)
              else Except.ok []) with
          | Except.error e => Except.error e
          | Except.ok lrecs =>
            Except.ok ({ tenderRecs := [rec1], lotRecs := lrecs } : Records))
        = Except.ok recs := hp
    rw [hlots'] at hp1
    have hp2 : (match buildRecord (uk4Fields r "UK4" (isUpdate r) [l]) with
        | Except.error e => Except.error e
        | Except.ok rec1 => Except.ok ({ tenderRecs := [rec1], lotRecs := [] } : Records))
        = Except.ok recs := hp1
    cases hb : buildRecord (uk4Fields r "UK4" (isUpdate r) [l]) with
    | error e => rw [hb] at hp2; simp at hp2
    | ok rec1 =>
      rw [hb] at hp2
      have hp3 : (Except.ok ({ tenderRecs := [rec1], lotRecs := [] } : Records) : Except PyErr Records)
          = Except.ok recs := hp2
      simp only [Except.ok.injEq] at hp3
      subst hp3
      have hfx : fvLookup "CPV Code" (uk4Fields r "UK4" (isUpdate r) [l]) = some (cpvSingle r) := rfl
      have hcs1 : cpvSingle r = .ok (.s cid) := by
        simp [cpvSingle, hitems, haddc, hcid, pyIndex0, okNA]
      have hf : fvLookup "CPV Code" (uk4Fields r "UK4" (isUpdate r) [l])
          = some (.ok (.s cid)) := by rw [hfx, hcs1]
      exact ⟨by simp [buildRecord_lookup _ _ _ _ hb hf], rfl⟩
  · intro parse r recs l1 l2 hlots hcls hp
    have hlots' : lotsOf r = [l1, l2] := by unfold lotsOf; rw [hlots]; rfl
    unfold processRelease at hp
    rw [hcls] at hp
    have hp1 : (match buildRecord (uk4Fields r "UK4" (isUpdate r) (lotsOf r)) with
        | Except.error e => Except.error e
        | Except.ok rec1 =>
          match (if (lotsOf r).length > 1
              then buildLotRecords r "UK4" (isUpdate r) 1 (lotsOf r)
              else Except.ok []) with
          | Except.error e => Except.error e
          | Except.ok lrecs =>
            Except.ok ({ tenderRecs := [rec1], lotRecs := lrecs } : Records))
        = Except.ok recs := hp
    rw [hlots'] at hp1
    have hp2 : (match buildRecord (uk4Fields r "UK4" (isUpdate r) [l1, l2]) with
        | Except.error e => Except.error e
        | Except.ok rec1 =>
          match buildLotRecords r "UK4" (isUpdate r) 1 [l1, l2] with
          | Except.error e => Except.error e
          | Except.ok lrecs =>
            Except.ok ({ tenderRecs := [rec1], lotRecs := lrecs } : Records))
        = Except.ok recs := hp1
    cases hb : buildRecord (uk4Fields r "UK4" (isUpdate r) [l1, l2]) with
    | error e => rw [hb] at hp2; simp at hp2
    | ok rec1 =>
      rw [hb] at hp2
      have hstep1 : buildLotRecords r "UK4" (isUpdate r) 1 [l1, l2]
          = (match buildRecord (lotFields r "UK4" (isUpdate r) 1 l1) with
             | Except.error e => Except.error e
             | Except.ok rl1 =>
               match buildLotRecords r "UK4" (isUpdate r) 2 [l2] with
               | Except.error e => Except.error e
               | Except.ok rest => Except.ok (rl1 :: rest)) := rfl
      have hstep2 : buildLotRecords r "UK4" (isUpdate r) 2 [l2]
          = (match buildRecord (lotFields r "UK4" (isUpdate r) 2 l2) with
             | Except.error e => Except.error e
             | Except.ok rl2 =>
               match buildLotRecords r "UK4" (isUpdate r) 3 ([] : List Lot) with
               | Except.error e => Except.error e
               | Except.ok rest => Except.ok (rl2 :: rest)) := rfl
      have hnil : buildLotRecords r "UK4" (isUpdate r) 3 ([] : List Lot) = .ok [] := rfl
      cases hb1 : buildRecord (lotFields r "UK4" (isUpdate r) 1 l1) with
      | error e =>
        rw [hstep1, hb1] at hp2
        simp at hp2
      | ok a1 =>
        cases hb2 : buildRecord (lotFields r "UK4" (isUpdate r) 2 l2) with
        | error e =>
          rw [hstep1, hb1, hstep2, hb2] at hp2
          simp at hp2
        | ok a2 =>
          rw [hstep1, hb1, hstep2, hb2, hnil] at hp2
          have hp3 : (Except.ok ({ tenderRecs := [rec1], lotRecs := [a1, a2] } : Records)
              : Except PyErr Records) = Except.ok recs := hp2
          simp only [Except.ok.injEq] at hp3
          subst hp3
          have hf2 : fvLookup "CPV Code" (uk4Fields r "UK4" (isUpdate r) [l1, l2])
              = some (.ok (.s "See lots sheet for CPV codes")) := rfl
          have hn1 : fvLookup "Lot Number" (lotFields r "UK4" (isUpdate r) 1 l1)
              = some (.ok (.i 1)) := rfl
          have hn2 : fvLookup "Lot Number" (lotFields r "UK4" (isUpdate r) 2 l2)
              = some (.ok (.i 2)) := rfl
          refine ⟨by simp [buildRecord_lookup _ _ _ _ hb hf2], ?_⟩
          simp [buildRecord_lookup _ _ _ _ hb1 hn1, buildRecord_lookup _ _ _ _ hb2 hn2]

/-- Claim C8, witness: the one-lot release yields CPV code 45000000 and no lot
rows; the two-lot release yields the sentinel plus lot rows numbered 1, 2. -/
theorem c8_witness :
    (processRelease pNone c8OneLot).map
        (fun recs => (recs.tenderRecs.map (fvLookup "CPV Code"), recs.lotRecs))
        = .ok ([some (.s "45000000")], [])
      ∧ (processRelease pNone c8TwoLots).map
          (fun recs => (recs.tenderRecs.map (fvLookup "CPV Code"),
                        recs.lotRecs.map (fvLookup "Lot Number")))
          = .ok ([some (.s "See lots sheet for CPV codes")],
                 [some (.i 1), some (.i 2)]) := by
  obtain ⟨recsA, hA⟩ : ∃ recs, processRelease pNone c8OneLot = .ok recs := ⟨_, rfl⟩
  obtain ⟨recsB, hB⟩ : ∃ recs, processRelease pNone c8TwoLots = .ok recs := ⟨_, rfl⟩
  have h1 := c8_uk4_cpv_and_lots.1 pNone c8OneLot recsA c8LotA c8ItemA [] c8ClassA []
    "45000000" rfl rfl rfl rfl (by rfl) hA
  have h2 := c8_uk4_cpv_and_lots.2 pNone c8TwoLots recsB c8LotB1 c8LotB2 rfl (by rfl) hB
  rw [hA, hB]
  simp [Except.map, h1.1, h1.2, h2.1, h2.2]

/-- Claim C10: every invocation of `fetch_and_process_data` runs with the
`job_running` flag set on entry and, whatever the body's outcome (success,
reported failure, or caught exception), the `finally` clears the flag, so a
subsequent `/run` trigger is accepted rather than rejected as in-progress. -/
theorem c10_job_flag_lifecycle (now : String) (parse : String → Option Int)
    (pages : List PageResult) (app : AppState) :
    (jobEntry app).jobRunning = true
      ∧ (fetchAndProcessData now parse pages app).1.jobRunning = false
      ∧ runJob (fetchAndProcessData now parse pages app).1 = "started" := by
  refine ⟨rfl, rfl, ?_⟩
  simp [runJob, fetchAndProcessData]

end FindaTender
